import Mathlib

/-!
Shallow embedding of the cross-space execution bridge
(`core/src/executive/internal_contract/impls/cross_space.rs`).

Machine integers (`U256`, `u64`, `usize`) are modelled as `Nat`; the claims
settled here never exercise 256-bit wraparound (the Rust `U256` arithmetic
panics on overflow rather than wrapping).  Fallible operations return
`Except`/`Option`; a `none` produced by the phantom-recovery pass models a
Rust panic (`unwrap`/`assert!` failure).  The keccak hash used for address
virtualization is an external primitive; every definition that needs it is
parameterized by a function `h : Address → Address`, so all theorems hold
for an arbitrary hash.
-/

set_option autoImplicit false

namespace CrossSpace

/-- Raw 160-bit account address, modelled as `Nat`. -/
abbrev Address : Type := Nat

/-- The two account namespaces (`Space` in `cfx_types`). -/
inductive Space where
  | native
  | ethereum
  deriving DecidableEq, Repr

/-- An address tagged with its space (`AddressWithSpace`). -/
structure AddressWithSpace where
  address : Address
  space : Space
  deriving DecidableEq, Repr

/-- A 32-byte log topic word, modelled symbolically: either one of the fixed
event-signature hashes or the ABI encoding of a 20-byte address.
Modelled from the spec: topics are fixed-width indexed fields holding either
the event's fixed signature identifier or an encoded address. -/
inductive Word where
  | sig (id : Nat)
  | addr (a : Address)
  deriving DecidableEq, Repr

/-- One ABI value of an event payload.  Modelled from the spec: the payload
is a tuple-encoded byte string of the non-indexed fields; we keep the tuple
structure symbolic instead of modelling the raw byte encoding. -/
inductive ABIValue where
  | u256 (n : Nat)
  | boolv (b : Bool)
  | bytes (bs : List Nat)
  deriving DecidableEq, Repr

/-- Payload of a log entry: the tuple of ABI values. -/
abbrev LogData : Type := List ABIValue

/-- A log entry (`primitives::LogEntry`): emitting address, topics, payload
and the space the log was emitted in. -/
structure LogEntry where
  address : Address
  topics : List Word
  data : LogData
  space : Space
  deriving DecidableEq, Repr

/-- A log bloom filter, modelled as a `Nat` bitmask; accrual is bitwise or.
Modelled from the spec: a probabilistic aggregate filter over a set of logs. -/
abbrev Bloom : Type := Nat

/-- Numeric fingerprint of a topic word, feeding the bloom model. -/
def Word.fingerprint : Word → Nat
  | .sig id => 2 * id
  | .addr a => 2 * a + 1

/-- Bloom contribution of a single log entry.
Modelled from the spec: each log contributes a fixed pattern of bits derived
from its address and topics. -/
def LogEntry.bloom (l : LogEntry) : Bloom :=
  l.topics.foldl (fun b t => b ||| 2 ^ ((3 * t.fingerprint) % 192)) (2 ^ (l.address % 192))

/-- The `Action` of a transaction (`primitives::Action`). -/
inductive Action where
  | call (receiver : Address)
  | create
  deriving DecidableEq, Repr

/-- Kind of message call (`CallType`). -/
inductive CallType where
  | none
  | call
  | callCode
  | delegateCall
  | staticCall
  deriving DecidableEq, Repr

/-- Kind of contract creation (`CreateType`). -/
inductive CreateType where
  | none
  | create
  | create2
  deriving DecidableEq, Repr

/-- Parameter encoding convention of a frame (`ParamsType`). -/
inductive ParamsType where
  | embedded
  | separate
  deriving DecidableEq, Repr

/-- Value attached to a frame (`ActionValue`). -/
inductive ActionValue where
  | transfer (v : Nat)
  | apparent (v : Nat)
  deriving DecidableEq, Repr

/-- The numeric amount carried by an `ActionValue` (`.value()` in Rust). -/
def ActionValue.value : ActionValue → Nat
  | .transfer v => v
  | .apparent v => v

/-- Call-frame parameters (`ActionParams`). -/
structure ActionParams where
  space : Space
  sender : Address
  address : Address
  code_address : Address
  original_sender : Address
  storage_owner : Address
  value : ActionValue
  gas : Nat
  gas_price : Nat
  code : Option (List Nat)
  code_hash : Option Nat
  data : Option (List Nat)
  call_type : CallType
  create_type : CreateType
  params_type : ParamsType
  deriving DecidableEq, Repr

/-- The VM error variants reachable in the bridge (`vm::Error`). -/
inductive VMError where
  | outOfGas
  | internalContract (msg : String)
  | other (code : Nat)
  deriving DecidableEq, Repr

/-- Gas/constant table of the execution spec (`vm::Spec` together with the
intrinsic-gas constants it exposes). -/
structure Spec where
  create_gas : Nat
  sha3_gas : Nat
  sha3_word_gas : Nat
  log_gas : Nat
  log_topic_gas : Nat
  log_data_gas : Nat
  call_gas : Nat
  call_new_account_gas : Nat
  evm_gas_ratio : Nat
  call_value_transfer_gas : Nat
  call_stipend : Nat
  memory_gas : Nat
  max_depth : Nat
  tx_gas : Nat
  tx_create_gas : Nat
  tx_data_zero_gas : Nat
  tx_data_non_zero_gas : Nat
  account_start_nonce : Nat
  deriving Repr

/-- The ledger state accessor interface.
Modelled from the spec: the consumed state interface exposes `balance`,
`nonce`, `code`, `code_hash`, `exists_and_not_null`, `transfer_balance` and
`inc_nonce`; we model it as total maps (opaque storage failures are out of
scope for the claims settled here). -/
structure StateDB where
  balance : AddressWithSpace → Nat
  nonce : AddressWithSpace → Nat
  existsAndNotNull : AddressWithSpace → Bool
  code : AddressWithSpace → Option (List Nat)
  code_hash : AddressWithSpace → Option Nat

/-- Modelled from the spec: move `v` from account `src` to account `dst`. -/
def StateDB.transfer_balance (st : StateDB) (src dst : AddressWithSpace) (v : Nat) : StateDB :=
  { st with balance := fun a =>
      if a = src then st.balance src - v
      else if a = dst then st.balance dst + v
      else st.balance a }

/-- Modelled from the spec: increment the nonce of account `a` by one. -/
def StateDB.inc_nonce (st : StateDB) (a : AddressWithSpace) : StateDB :=
  { st with nonce := fun x => if x = a then st.nonce a + 1 else st.nonce x }

/-- The slice of `InternalRefContext` the bridge reads and writes: the state,
the spec table, the current call depth, the block number of the environment
and the append-only log sink of the enclosing transaction. -/
structure InternalRefContext where
  state : StateDB
  spec : Spec
  depth : Nat
  env_number : Nat
  logs : List LogEntry

/-- Address of the cross-space bridge contract.
Modelled from the spec: the fixed reserved address of the bridge internal
contract, from the parameters crate. -/
def CROSS_SPACE_CONTRACT_ADDRESS : Address :=
  0x0888000000000000000000000000000000000006

/-- Gas ratio splitting forwarded from reserved gas.
Modelled from the spec: the cross-space gas ratio constant from the
parameters crate. -/
def CROSS_SPACE_GAS_RATIO : Nat := 10

/-- Signature word of the cross-space `Call` event.
Modelled from the spec: each event type has a fixed, pairwise distinct
signature identifier. -/
def CallEvent.EVENT_SIG : Word := .sig 0

/-- Signature word of the cross-space `Create` event. -/
def CreateEvent.EVENT_SIG : Word := .sig 1

/-- Signature word of the cross-space `Withdraw` event. -/
def WithdrawEvent.EVENT_SIG : Word := .sig 2

/-- Signature word of the cross-space `Return` event. -/
def ReturnEvent.EVENT_SIG : Word := .sig 3

/-- Modelled from the spec: appending an event log entry at the bridge
contract's address, with the signature word followed by the indexed topics,
and the tuple-encoded payload. -/
def appendEventLog (sigWord : Word) (indexed : List Word) (payload : LogData)
    (params : ActionParams) (ctx : InternalRefContext) : InternalRefContext :=
  { ctx with logs := ctx.logs ++
      [{ address := CROSS_SPACE_CONTRACT_ADDRESS
         topics := sigWord :: indexed
         data := payload
         space := params.space }] }

/-- Emission of a `CallEvent` (topics: mapped sender, receiver; payload:
value, nonce, forwarded gas, call data). -/
def CallEvent.log (t : Address × Address) (p : Nat × Nat × Nat × List Nat)
    (params : ActionParams) (ctx : InternalRefContext) : InternalRefContext :=
  appendEventLog CallEvent.EVENT_SIG [.addr t.1, .addr t.2]
    [.u256 p.1, .u256 p.2.1, .u256 p.2.2.1, .bytes p.2.2.2] params ctx

/-- Emission of a `CreateEvent` (topics: mapped sender, derived contract
address; payload: value, nonce, forwarded gas, init code). -/
def CreateEvent.log (t : Address × Address) (p : Nat × Nat × Nat × List Nat)
    (params : ActionParams) (ctx : InternalRefContext) : InternalRefContext :=
  appendEventLog CreateEvent.EVENT_SIG [.addr t.1, .addr t.2]
    [.u256 p.1, .u256 p.2.1, .u256 p.2.2.1, .bytes p.2.2.2] params ctx

/-- Emission of a `WithdrawEvent` (topics: mapped address, native receiver;
payload: value, nonce). -/
def WithdrawEvent.log (t : Address × Address) (p : Nat × Nat)
    (params : ActionParams) (ctx : InternalRefContext) : InternalRefContext :=
  appendEventLog WithdrawEvent.EVENT_SIG [.addr t.1, .addr t.2]
    [.u256 p.1, .u256 p.2] params ctx

/-- Emission of a `ReturnEvent` (no extra topics; payload: nonce, gas left,
success flag). -/
def ReturnEvent.log (p : Nat × Nat × Bool)
    (params : ActionParams) (ctx : InternalRefContext) : InternalRefContext :=
  appendEventLog ReturnEvent.EVENT_SIG []
    [.u256 p.1, .u256 p.2.1, .boolv p.2.2] params ctx

/-- Address virtualization (`evm_map`): hash the raw address and tag the
digest with the EVM space.  `h` models the keccak hash, an external
primitive; all theorems hold for an arbitrary `h`. -/
def evm_map (h : Address → Address) (address : Address) : AddressWithSpace :=
  { address := h address, space := Space.ethereum }

/-- Gas overhead of a bridge create (`create_gas`). -/
def create_gas (context : InternalRefContext) (code_length hash_length : Nat) : Nat :=
  let base_gas := context.spec.create_gas
  let hash_words := (hash_length + 31) / 32
  let keccak_code_gas := context.spec.sha3_gas + context.spec.sha3_word_gas * hash_words
  let address_mapping_gas := context.spec.sha3_gas * 3
  let log_data_length := 32 * 4 + code_length
  let log_gas := context.spec.log_gas + 3 * context.spec.log_topic_gas
    + context.spec.log_data_gas * log_data_length
  base_gas + keccak_code_gas + address_mapping_gas + log_gas

/-- Gas overhead of a bridge call (`call_gas`). -/
def call_gas (receiver : Address) (params : ActionParams)
    (context : InternalRefContext) (data_length : Nat) (is_static : Bool) : Nat :=
  let new_account_gas :=
    if !is_static && !(context.state.existsAndNotNull { address := receiver, space := Space.ethereum }) then
      context.spec.call_new_account_gas * context.spec.evm_gas_ratio
    else 0
  let transfer_gas := if 0 < params.value.value then context.spec.call_value_transfer_gas else 0
  let call_gas := context.spec.call_gas + new_account_gas + transfer_gas
  let address_mapping_gas := context.spec.sha3_gas * 4
  let log_data_length := 32 * 4 + data_length
  let log_gas :=
    if !is_static then
      context.spec.log_gas + 3 * context.spec.log_topic_gas
        + context.spec.log_data_gas * log_data_length
    else 0
  call_gas + address_mapping_gas + log_gas

/-- The one-shot continuation captured at initiation time (`Resume`). -/
structure Resume where
  params : ActionParams
  gas_retained : Nat
  deriving Repr

/-- Return data of a sub-execution, modelled as the byte list. -/
abbrev ReturnData : Type := List Nat

/-- The pending-finalization record (`PassResult`). -/
structure PassResult where
  resume : Resume
  gas_left : Nat
  return_data : Except VMError ReturnData
  apply_state : Bool

/-- Outcome of a message sub-call (`MessageCallResult`). -/
inductive MessageCallResult where
  | success (gas_left : Nat) (data : List Nat)
  | failed (err : VMError)
  | reverted (gas_left : Nat) (data : ReturnData)

/-- Outcome of a contract-creation sub-call (`ContractCreateResult`). -/
inductive ContractCreateResult where
  | created (address : AddressWithSpace) (gas_left : Nat)
  | failed (err : VMError)
  | reverted (gas_left : Nat) (data : ReturnData)

/-- Modelled from the spec: ABI encoding of a dynamic byte string (offset
word, length word, right-padded content); only the length of the encoding
matters to the claims settled here. -/
def abiEncodeBytes (bs : List Nat) : List Nat :=
  List.replicate 64 0 ++ bs ++ List.replicate ((32 - bs.length % 32) % 32) 0

/-- Modelled from the spec: ABI encoding of a 20-byte address as one
32-byte word. -/
def abiEncodeAddress (a : Address) : List Nat :=
  List.replicate 31 0 ++ [a]

/-- `ResumeCreate::resume_create`: translate a creation outcome into the
pending-finalization record. -/
def Resume.resume_create (resume : Resume) (result : ContractCreateResult) : PassResult :=
  match result with
  | .created address gas_left =>
      { resume := resume, gas_left := gas_left
        return_data := .ok (abiEncodeAddress address.address), apply_state := true }
  | .failed err =>
      { resume := resume, gas_left := 0, return_data := .error err, apply_state := false }
  | .reverted gas_left data =>
      { resume := resume, gas_left := gas_left, return_data := .ok data, apply_state := false }

/-- `ResumeCall::resume_call`: translate a call outcome into the
pending-finalization record. -/
def Resume.resume_call (resume : Resume) (result : MessageCallResult) : PassResult :=
  match result with
  | .success gas_left data =>
      { resume := resume, gas_left := gas_left
        return_data := .ok (abiEncodeBytes data), apply_state := true }
  | .failed err =>
      { resume := resume, gas_left := 0, return_data := .error err, apply_state := false }
  | .reverted gas_left data =>
      { resume := resume, gas_left := gas_left, return_data := .ok data, apply_state := false }

/-- Final gas outcome handed back to the caller's frame (`GasLeft`). -/
inductive GasLeft where
  | known (gas_left : Nat)
  | needsReturn (gas_left : Nat) (data : ReturnData) (apply_state : Bool)
  deriving Repr

/-- Suspension request raised to the scheduler (`ExecTrapError`). -/
inductive ExecTrap where
  | call (p : ActionParams) (r : Resume)
  | create (p : ActionParams) (r : Resume)

/-- Result of running one `Exec` step (`ExecTrapResult`). -/
inductive TrapResult (α : Type) where
  | ret (r : Except VMError α)
  | subCallCreate (t : ExecTrap)

/-- `PassResult::exec`: finalization of a cross-space call/create
continuation.  First reads the mapped sender's nonce, increments it and
emits the `ReturnEvent` with payload `(nonce, gas_left, apply_state)`; then
charges the return-data memory cost against `gas_left + gas_retained`,
forcing an out-of-gas error when it does not fit. -/
def PassResult.exec (h : Address → Address) (pr : PassResult)
    (ctx : InternalRefContext) : TrapResult GasLeft × InternalRefContext :=
  let params := pr.resume.params
  let mapped_sender := evm_map h params.sender
  let nonce := ctx.state.nonce mapped_sender
  let st1 := ctx.state.inc_nonce mapped_sender
  let ctx1 := { ctx with state := st1 }
  let ctx2 := ReturnEvent.log (nonce, pr.gas_left, pr.apply_state) params ctx1
  match pr.return_data with
  | .ok data =>
      let length := data.length
      let return_cost := (length + 31) / 32 * ctx.spec.memory_gas
      let gas_left := pr.gas_left + pr.resume.gas_retained
      if gas_left < return_cost then
        (.ret (.error .outOfGas), ctx2)
      else
        (.ret (.ok (.needsReturn (gas_left - return_cost) data pr.apply_state)), ctx2)
  | .error err => (.ret (.error err), ctx2)

/-- Address-derivation scheme for contract creation
(`CreateContractAddress`). -/
inductive CreateContractAddress where
  | fromSenderNonce
  | fromSenderSaltAndCodeHash (salt : Nat)

/-- Modelled from the spec: a deterministic fingerprint of a byte string,
standing in for the keccak hash of the init code. -/
def bytesFingerprint (bs : List Nat) : Nat :=
  bs.foldl (fun a b => a * 257 + b + 1) 7

/-- Modelled from the spec: deterministic contract-address derivation, from
(mapped sender, nonce) for CREATE and from (mapped sender, salt, hash of the
init code) for CREATE2; the concrete hash is opaque, modelled by an
injective pairing. -/
def contract_address (scheme : CreateContractAddress) (_block_number : Nat)
    (sender : AddressWithSpace) (nonce : Nat) (code : List Nat) :
    AddressWithSpace × Option Nat :=
  match scheme with
  | .fromSenderNonce =>
      ({ address := Nat.pair 0 (Nat.pair sender.address nonce), space := sender.space },
        some (bytesFingerprint code))
  | .fromSenderSaltAndCodeHash salt =>
      ({ address := Nat.pair 1 (Nat.pair sender.address (Nat.pair salt (bytesFingerprint code))),
         space := sender.space },
        some (bytesFingerprint code))

/-- `call_to_evmcore`: initiation of a cross-space call.  Checks the call
depth, splits the gas, pre-transfers the value to the mapped sender
pseudo-account, builds the EVM-space sub-frame, bumps the mapped sender's
nonce, logs a `CallEvent` when the call kind is `Call`, and raises the
suspension request. -/
def call_to_evmcore (h : Address → Address) (receiver : Address)
    (data : List Nat) (call_type : CallType) (params : ActionParams)
    (gas_left : Nat) (ctx : InternalRefContext) :
    Except VMError ExecTrap × InternalRefContext :=
  if ctx.spec.max_depth ≤ ctx.depth then
    (.error (.internalContract "Exceed Depth"), ctx)
  else
    let call_gas := gas_left / CROSS_SPACE_GAS_RATIO +
      (if 0 < params.value.value then ctx.spec.call_stipend else 0)
    let reserved_gas := gas_left - gas_left / CROSS_SPACE_GAS_RATIO
    let mapped_sender := evm_map h params.sender
    let mapped_origin := evm_map h params.original_sender
    let st1 := ctx.state.transfer_balance
      { address := params.address, space := Space.native } mapped_sender params.value.value
    let address : AddressWithSpace := { address := receiver, space := Space.ethereum }
    let next_params : ActionParams :=
      { space := Space.ethereum
        sender := mapped_sender.address
        address := address.address
        value := .transfer params.value.value
        code_address := address.address
        original_sender := mapped_origin.address
        storage_owner := mapped_sender.address
        gas := call_gas
        gas_price := params.gas_price
        code := st1.code address
        code_hash := st1.code_hash address
        data := some data
        call_type := call_type
        create_type := CreateType.none
        params_type := ParamsType.separate }
    let nonce := st1.nonce mapped_sender
    let st2 := st1.inc_nonce mapped_sender
    let ctx2 := { ctx with state := st2 }
    let ctx3 :=
      if call_type = CallType.call then
        CallEvent.log (mapped_sender.address, address.address)
          (params.value.value, nonce, call_gas, data) params ctx2
      else ctx2
    (.ok (.call next_params { params := params, gas_retained := reserved_gas }), ctx3)

/-- `create_to_evmcore`: initiation of a cross-space create.  Same depth
check and gas split as the call path; derives the new contract address,
always logs a `CreateEvent`, and raises the suspension request. -/
def create_to_evmcore (h : Address → Address) (init : List Nat)
    (salt : Option Nat) (params : ActionParams) (gas_left : Nat)
    (ctx : InternalRefContext) :
    Except VMError ExecTrap × InternalRefContext :=
  if ctx.spec.max_depth ≤ ctx.depth then
    (.error (.internalContract "Exceed Depth"), ctx)
  else
    let call_gas := gas_left / CROSS_SPACE_GAS_RATIO +
      (if 0 < params.value.value then ctx.spec.call_stipend else 0)
    let reserved_gas := gas_left - gas_left / CROSS_SPACE_GAS_RATIO
    let mapped_sender := evm_map h params.sender
    let mapped_origin := evm_map h params.original_sender
    let st1 := ctx.state.transfer_balance
      { address := params.address, space := Space.native } mapped_sender params.value.value
    let schemePair : CreateContractAddress × CreateType :=
      match salt with
      | .none => (CreateContractAddress.fromSenderNonce, CreateType.create)
      | .some s => (CreateContractAddress.fromSenderSaltAndCodeHash s, CreateType.create2)
    let derived := contract_address schemePair.1 ctx.env_number mapped_sender
      (st1.nonce mapped_sender) init
    let address := derived.1.address
    let next_params : ActionParams :=
      { space := Space.ethereum
        code_address := address
        address := address
        sender := mapped_sender.address
        original_sender := mapped_origin.address
        storage_owner := 0
        gas := call_gas
        gas_price := params.gas_price
        value := .transfer params.value.value
        code := some init
        code_hash := derived.2
        data := Option.none
        call_type := CallType.none
        create_type := schemePair.2
        params_type := ParamsType.embedded }
    let nonce := st1.nonce mapped_sender
    let st2 := st1.inc_nonce mapped_sender
    let ctx2 := { ctx with state := st2 }
    let ctx3 := CreateEvent.log (mapped_sender.address, address)
      (params.value.value, nonce, call_gas, init) params ctx2
    (.ok (.create next_params { params := params, gas_retained := reserved_gas }), ctx3)

/-- `withdraw_from_evmcore`: synchronous withdrawal from the mapped
pseudo-account back to the native-space sender. -/
def withdraw_from_evmcore (h : Address → Address) (sender : Address)
    (value : Nat) (params : ActionParams) (ctx : InternalRefContext) :
    Except VMError Unit × InternalRefContext :=
  let mapped_address := evm_map h sender
  let balance := ctx.state.balance mapped_address
  if balance < value then
    (.error (.internalContract "Not enough balance for withdrawing from mapped address"), ctx)
  else
    let st1 := ctx.state.transfer_balance mapped_address
      { address := sender, space := Space.native } value
    let nonce := st1.nonce mapped_address
    let st2 := st1.inc_nonce mapped_address
    let ctx2 := { ctx with state := st2 }
    let ctx3 := WithdrawEvent.log (mapped_address.address, sender)
      (params.value.value, nonce) params ctx2
    (.ok (), ctx3)

/-- `mapped_balance`: balance of the mapped pseudo-account. -/
def mapped_balance (h : Address → Address) (address : Address)
    (ctx : InternalRefContext) : Nat :=
  ctx.state.balance (evm_map h address)

/-- `mapped_nonce`: nonce of the mapped pseudo-account. -/
def mapped_nonce (h : Address → Address) (address : Address)
    (ctx : InternalRefContext) : Nat :=
  ctx.state.nonce (evm_map h address)

/-- Receipt outcome code of a successful transaction.
Modelled from the spec: the same outcome encoding as real transaction
receipts. -/
def TRANSACTION_OUTCOME_SUCCESS : Nat := 0

/-- Receipt outcome code of a failed transaction that still bumps the
nonce. -/
def TRANSACTION_OUTCOME_EXCEPTION_WITH_NONCE_BUMPING : Nat := 1

/-- A synthetic transaction reconstructed from the event log
(`PhantomTransaction`). -/
structure PhantomTransaction where
  fromAddr : Address
  nonce : Nat
  action : Action
  gas_limit : Nat
  value : Nat
  data : List Nat
  gas_used : Nat
  log_bloom : Bloom
  logs : List LogEntry
  outcome_status : Nat
  deriving DecidableEq, Repr

/-- `PhantomTransaction::simple_transfer`: a plain finalized transfer
phantom with intrinsic gas only, no data, no logs and a successful
outcome. -/
def PhantomTransaction.simple_transfer (fromAddr toAddr : Address)
    (nonce value : Nat) (spec : Spec) : PhantomTransaction :=
  { fromAddr := fromAddr
    nonce := nonce
    action := .call toAddr
    gas_limit := spec.tx_gas
    value := value
    data := []
    gas_used := spec.tx_gas
    log_bloom := 0
    logs := []
    outcome_status := TRANSACTION_OUTCOME_SUCCESS }

/-- Modelled from the spec: the standard transaction intrinsic gas — a fixed
base charge (larger for creations) plus a per-byte charge over the data,
cheaper for zero bytes (`gas_required_for`). -/
def gas_required_for (is_create : Bool) (data : List Nat) (spec : Spec) : Nat :=
  data.foldl
    (fun g b => g + (if b = 0 then spec.tx_data_zero_gas else spec.tx_data_non_zero_gas))
    (if is_create then spec.tx_create_gas else spec.tx_gas)

/-- Symbolic `Bytes20::abi_decode` on one topic word: succeeds exactly on an
encoded address. -/
def Word.asBytes20 : Word → Option Address
  | .addr a => some a
  | _ => Option.none

/-- ABI decoding of a Call/Create event payload as the tuple
`(value, nonce, gas_limit, data)`. -/
def decodeCallLikeData : LogData → Option (Nat × Nat × Nat × List Nat)
  | [.u256 v, .u256 n, .u256 g, .bytes d] => some (v, n, g, d)
  | _ => Option.none

/-- ABI decoding of a Withdraw event payload as the tuple `(value, nonce)`. -/
def decodeWithdrawData : LogData → Option (Nat × Nat)
  | [.u256 v, .u256 n] => some (v, n)
  | _ => Option.none

/-- ABI decoding of a Return event payload as the tuple
`(nonce, gas_left, success)`. -/
def decodeReturnData : LogData → Option (Nat × Nat × Bool)
  | [.u256 n, .u256 g, .boolv b] => some (n, g, b)
  | _ => Option.none

/-- State of the forward recovery pass: the phantom transactions emitted so
far and the at-most-one open working phantom. -/
structure RecState where
  txs : List PhantomTransaction
  working : Option PhantomTransaction
  deriving DecidableEq, Repr

/-- Processing of one log entry by `recover_phantom`'s loop body.  `none`
models a panic of the Rust code (a failed `assert!` or `unwrap`). -/
def recoverStep (spec : Spec) (gas_price : Nat) (st : RecState)
    (log : LogEntry) : Option RecState :=
  if log.address = CROSS_SPACE_CONTRACT_ADDRESS then
    match log.topics.head? with
    | Option.none => Option.none
    | some event_sig =>
      if event_sig = CallEvent.EVENT_SIG ∨ event_sig = CreateEvent.EVENT_SIG then
        match st.working with
        | some _ => Option.none
        | Option.none =>
          match decodeCallLikeData log.data with
          | Option.none => Option.none
          | some (value, nonce, gas_limit, data) =>
            match log.topics[1]? , log.topics[2]? with
            | some t1, some t2 =>
              match t1.asBytes20, t2.asBytes20 with
              | some fromA, some toA =>
                let is_create := event_sig = CreateEvent.EVENT_SIG
                let gas_limit := gas_limit + gas_required_for is_create data spec
                let action := if is_create then Action.create else Action.call toA
                some
                  { txs := st.txs ++
                      [PhantomTransaction.simple_transfer 0 fromA 0
                        (value + gas_limit * gas_price) spec]
                    working := some
                      { fromAddr := fromA
                        nonce := nonce
                        action := action
                        value := value
                        gas_limit := gas_limit
                        data := data
                        gas_used := 0
                        log_bloom := 0
                        logs := []
                        outcome_status := 0 } }
              | _, _ => Option.none
            | _, _ => Option.none
      else if event_sig = WithdrawEvent.EVENT_SIG then
        match log.topics[1]? with
        | Option.none => Option.none
        | some t1 =>
          match t1.asBytes20 with
          | Option.none => Option.none
          | some fromA =>
            match decodeWithdrawData log.data with
            | Option.none => Option.none
            | some (value, nonce) =>
              some { st with txs := st.txs ++
                [PhantomTransaction.simple_transfer fromA 0 nonce value spec] }
      else if event_sig = ReturnEvent.EVENT_SIG then
        match decodeReturnData log.data with
        | Option.none => Option.none
        | some (nonce, gas_left, success) =>
          match st.working with
          | Option.none => Option.none
          | some w =>
            let w :=
              { w with
                gas_used := w.gas_limit - gas_left
                outcome_status :=
                  if success then TRANSACTION_OUTCOME_SUCCESS
                  else TRANSACTION_OUTCOME_EXCEPTION_WITH_NONCE_BUMPING
                log_bloom := w.logs.foldl (fun b l => b ||| l.bloom) 0 }
            some
              { txs := st.txs ++
                  [w, PhantomTransaction.simple_transfer w.fromAddr 0 nonce
                    (gas_left * gas_price) spec]
                working := Option.none }
      else
        some st
  else if log.space = Space.ethereum then
    match st.working with
    | some w => some { st with working := some { w with logs := w.logs ++ [log] } }
    | Option.none => some st
  else
    some st

/-- The forward fold of the recovery pass over a list of logs, starting from
an optional state (`none` propagates a previous panic). -/
def recoverFold (spec : Spec) (gas_price : Nat) (init : Option RecState)
    (logs : List LogEntry) : Option RecState :=
  logs.foldl (fun acc log => acc.bind (fun st => recoverStep spec gas_price st log)) init

/-- The empty initial state of the recovery pass. -/
def initRecState : RecState := { txs := [], working := Option.none }

/-- `recover_phantom`: the single forward pass over a transaction's ordered
log reconstructing the phantom transactions.  `none` models a panic. -/
def recover_phantom (logs : List LogEntry) (spec : Spec) (gas_price : Nat) :
    Option (List PhantomTransaction) :=
  (recoverFold spec gas_price (some initRecState) logs).map RecState.txs

/-- The spec's formula for the bridge-call gas overhead, written from the
spec's words (for comparison with `call_gas`, which is written from the
source): call base + new-account cost + transfer cost + mapping cost of four
words + log cost of the data length, the log cost zero when static, the
new-account cost charged only when not static and the mapped receiver
account does not yet exist and is not economically null, and the transfer
cost charged only when the value is positive. -/
def call_overhead_spec (receiver : Address) (params : ActionParams)
    (context : InternalRefContext) (data_length : Nat) (is_static : Bool) : Nat :=
  let new_account_cost :=
    if is_static = false ∧
        context.state.existsAndNotNull { address := receiver, space := Space.ethereum } = false then
      context.spec.call_new_account_gas * context.spec.evm_gas_ratio
    else 0
  let transfer_cost :=
    if 0 < params.value.value then context.spec.call_value_transfer_gas else 0
  let mapping_cost := 4 * context.spec.sha3_gas
  let log_cost :=
    if is_static = true then 0
    else context.spec.log_gas + 3 * context.spec.log_topic_gas
      + context.spec.log_data_gas * (128 + data_length)
  context.spec.call_gas + new_account_cost + transfer_cost + mapping_cost + log_cost

/-- Gas forwarded to the sub-frame of a raised suspension request. -/
def trapForwardedGas : Except VMError ExecTrap → Option Nat
  | .ok (.call p _) => some p.gas
  | .ok (.create p _) => some p.gas
  | .error _ => Option.none

/-- Gas retained by the continuation of a raised suspension request. -/
def trapRetainedGas : Except VMError ExecTrap → Option Nat
  | .ok (.call _ r) => some r.gas_retained
  | .ok (.create _ r) => some r.gas_retained
  | .error _ => Option.none

/-- A concrete gas table used by the concrete witnesses below. -/
def specOne : Spec :=
  { create_gas := 32000, sha3_gas := 30, sha3_word_gas := 6, log_gas := 375
    log_topic_gas := 375, log_data_gas := 8, call_gas := 700
    call_new_account_gas := 25000, evm_gas_ratio := 2
    call_value_transfer_gas := 9000, call_stipend := 2300, memory_gas := 3
    max_depth := 512, tx_gas := 21000, tx_create_gas := 53000
    tx_data_zero_gas := 4, tx_data_non_zero_gas := 68, account_start_nonce := 0 }

/-- Concrete frame parameters used by the concrete witnesses below. -/
def params₀ : ActionParams :=
  { space := Space.native, sender := 3, address := 8, code_address := 8
    original_sender := 3, storage_owner := 3, value := .transfer 0, gas := 100
    gas_price := 1, code := Option.none, code_hash := Option.none
    data := Option.none, call_type := .call, create_type := .none
    params_type := .separate }

/-- A concrete ledger state used by the concrete witnesses below. -/
def state₀ : StateDB :=
  { balance := fun _ => 10, nonce := fun _ => 7
    existsAndNotNull := fun _ => false
    code := fun _ => Option.none, code_hash := fun _ => Option.none }

/-- A concrete context used by the concrete witnesses below. -/
def ctx₀ : InternalRefContext :=
  { state := state₀, spec := specOne, depth := 0, env_number := 0, logs := [] }

/-- A pending finalization obtained from a successful sub-call that returned
one byte, with no gas left and no gas retained. -/
def prC1 : PassResult :=
  Resume.resume_call { params := params₀, gas_retained := 0 }
    (.success 0 [1])

/-- A pending finalization with a 32-byte successful payload and enough
available gas to pay the return cost. -/
def pr₁ : PassResult :=
  { resume := { params := params₀, gas_retained := 2 }, gas_left := 8
    return_data := .ok (List.replicate 32 1), apply_state := true }

/-- A bridge `CallEvent` log entry for a call from `a` to `b` of value 100,
nonce 5, forwarded gas 21000 and empty data. -/
def callLogC3 (a b : Address) : LogEntry :=
  { address := CROSS_SPACE_CONTRACT_ADDRESS
    topics := [CallEvent.EVENT_SIG, .addr a, .addr b]
    data := [.u256 100, .u256 5, .u256 21000, .bytes []]
    space := Space.native }

/-- A bridge `ReturnEvent` log entry for nonce 5, gas left 5000, success. -/
def returnLogC3 : LogEntry :=
  { address := CROSS_SPACE_CONTRACT_ADDRESS
    topics := [ReturnEvent.EVENT_SIG]
    data := [.u256 5, .u256 5000, .boolv true]
    space := Space.native }

/-- The recovery state reached after processing one `callLogC3 11 22` with
the concrete gas table and gas price 1. -/
def stAfterCall : RecState :=
  { txs := [PhantomTransaction.simple_transfer 0 11 0 42100 specOne]
    working := some
      { fromAddr := 11, nonce := 5, action := .call 22, value := 100
        gas_limit := 42000, data := [], gas_used := 0, log_bloom := 0
        logs := [], outcome_status := 0 } }

/-- A bridge log entry with no topics at all. -/
def noTopicsLog : LogEntry :=
  { address := CROSS_SPACE_CONTRACT_ADDRESS, topics := [], data := []
    space := Space.native }

/-- A bridge `WithdrawEvent` log entry for mapped address 9, receiver 4,
value 3 and nonce 8. -/
def withdrawLog : LogEntry :=
  { address := CROSS_SPACE_CONTRACT_ADDRESS
    topics := [WithdrawEvent.EVENT_SIG, .addr 9, .addr 4]
    data := [.u256 3, .u256 8]
    space := Space.native }

theorem recoverFold_none (spec : Spec) (gas_price : Nat) (logs : List LogEntry) :
    recoverFold spec gas_price Option.none logs = Option.none := by
  induction logs with
  | nil => rfl
  | cons l ls ih => simpa [recoverFold] using ih

theorem recoverFold_append (spec : Spec) (gas_price : Nat) (init : Option RecState)
    (p q : List LogEntry) :
    recoverFold spec gas_price init (p ++ q) =
      recoverFold spec gas_price (recoverFold spec gas_price init p) q := by
  simp [recoverFold, List.foldl_append]

theorem recoverFold_cons (spec : Spec) (gas_price : Nat) (st : RecState)
    (l : LogEntry) (ls : List LogEntry) :
    recoverFold spec gas_price (some st) (l :: ls) =
      recoverFold spec gas_price (recoverStep spec gas_price st l) ls := by
  simp [recoverFold]

/-- C3: recover applied to the two-event log consisting of a CallEvent from
`a` to `b` with value 100, nonce 5, forwarded gas 21000 and empty data,
followed by a ReturnEvent with nonce 5, gas left 5000 and success, with gas
price 1, yields exactly the funding transfer to `a` of
`100 + (21000 + intrinsic) * 1`, then the finalized call from `a` to `b`
with gas used `(21000 + intrinsic) - 5000` and a successful outcome, then
the refund transfer from `a` of `5000 * 1`. -/
theorem recover_two_event_log_c3 (spec : Spec) (a b : Address) :
    recover_phantom [callLogC3 a b, returnLogC3] spec 1 =
      some
        [PhantomTransaction.simple_transfer 0 a 0
            (100 + (21000 + gas_required_for false [] spec) * 1) spec,
          { fromAddr := a, nonce := 5, action := .call b, value := 100
            gas_limit := 21000 + gas_required_for false [] spec, data := []
            gas_used := (21000 + gas_required_for false [] spec) - 5000
            log_bloom := 0, logs := []
            outcome_status := TRANSACTION_OUTCOME_SUCCESS },
          PhantomTransaction.simple_transfer a 0 5 (5000 * 1) spec] := by
  simp [recover_phantom, recoverFold, recoverStep, callLogC3, returnLogC3,
    decodeCallLikeData, decodeReturnData, Word.asBytes20, CallEvent.EVENT_SIG,
    CreateEvent.EVENT_SIG, WithdrawEvent.EVENT_SIG, ReturnEvent.EVENT_SIG,
    initRecState, gas_required_for, PhantomTransaction.simple_transfer,
    TRANSACTION_OUTCOME_SUCCESS]

/-- C5: at call and create initiation below the depth limit, the forwarded
gas is `gas_left / ratio` plus the stipend exactly when the value is
positive, the reserved gas is `gas_left - gas_left / ratio`, and their sum
is `gas_left` plus the stipend when the value is positive. -/
theorem gas_split_exact_c5 (h : Address → Address) (receiver : Address)
    (data init : List Nat) (call_type : CallType) (salt : Option Nat)
    (params : ActionParams) (gas_left : Nat) (ctx : InternalRefContext)
    (hdepth : ctx.depth < ctx.spec.max_depth) :
    trapForwardedGas (call_to_evmcore h receiver data call_type params gas_left ctx).1 =
      some (gas_left / CROSS_SPACE_GAS_RATIO +
        (if 0 < params.value.value then ctx.spec.call_stipend else 0)) ∧
    trapRetainedGas (call_to_evmcore h receiver data call_type params gas_left ctx).1 =
      some (gas_left - gas_left / CROSS_SPACE_GAS_RATIO) ∧
    trapForwardedGas (create_to_evmcore h init salt params gas_left ctx).1 =
      some (gas_left / CROSS_SPACE_GAS_RATIO +
        (if 0 < params.value.value then ctx.spec.call_stipend else 0)) ∧
    trapRetainedGas (create_to_evmcore h init salt params gas_left ctx).1 =
      some (gas_left - gas_left / CROSS_SPACE_GAS_RATIO) ∧
    (gas_left / CROSS_SPACE_GAS_RATIO +
        (if 0 < params.value.value then ctx.spec.call_stipend else 0)) +
      (gas_left - gas_left / CROSS_SPACE_GAS_RATIO) =
      gas_left + (if 0 < params.value.value then ctx.spec.call_stipend else 0) := by
  have hnd : ¬ ctx.spec.max_depth ≤ ctx.depth := Nat.not_le.mpr hdepth
  refine ⟨?_, ?_, ?_, ?_, ?_⟩
  · simp [call_to_evmcore, hnd, trapForwardedGas]
  · simp [call_to_evmcore, hnd, trapRetainedGas]
  · simp [create_to_evmcore, hnd, trapForwardedGas]
  · simp [create_to_evmcore, hnd, trapRetainedGas]
  · have hle : gas_left / CROSS_SPACE_GAS_RATIO ≤ gas_left :=
      Nat.div_le_self gas_left CROSS_SPACE_GAS_RATIO
    omega

/-- Witness for C5 at a concrete input: forwarded 10, reserved 90, summing
back to the 100 units of gas left (zero value, so no stipend). -/
theorem gas_split_exact_c5_witness :
    ctx₀.depth < ctx₀.spec.max_depth ∧
    trapForwardedGas (call_to_evmcore (fun a => a) 2 [] .call params₀ 100 ctx₀).1 = some 10 ∧
    trapRetainedGas (call_to_evmcore (fun a => a) 2 [] .call params₀ 100 ctx₀).1 = some 90 := by
  have h := gas_split_exact_c5 (fun a => a) 2 [] [] .call Option.none params₀ 100 ctx₀
    (by decide)
  exact ⟨by decide, by simpa [params₀, ActionValue.value] using h.1,
    by simpa [params₀, ActionValue.value] using h.2.1⟩

/-- C6: the bridge-call gas overhead computed by the source equals the
spec's formula: call base + new-account cost + transfer cost + mapping cost
of four words + log cost of the data length, the log cost zero when static,
the new-account cost charged only when not static and the mapped receiver
account neither exists nor is non-null, and the transfer cost charged only
when the value is positive. -/
theorem call_overhead_matches_spec_c6 (receiver : Address) (params : ActionParams)
    (context : InternalRefContext) (data_length : Nat) (is_static : Bool) :
    call_gas receiver params context data_length is_static =
      call_overhead_spec receiver params context data_length is_static := by
  cases is_static <;>
    cases hex : context.state.existsAndNotNull { address := receiver, space := Space.ethereum } <;>
      simp [call_gas, call_overhead_spec, hex] <;> ring

/-- C7: at or above the depth limit, both cross-space call and create
initiation fail with the depth-exceeded internal-contract error and leave
the context (state and log stream) untouched. -/
theorem depth_exceeded_no_mutation_c7 (h : Address → Address) (receiver : Address)
    (data init : List Nat) (call_type : CallType) (salt : Option Nat)
    (params : ActionParams) (gas_left : Nat) (ctx : InternalRefContext)
    (hdepth : ctx.spec.max_depth ≤ ctx.depth) :
    call_to_evmcore h receiver data call_type params gas_left ctx =
      (.error (.internalContract "Exceed Depth"), ctx) ∧
    create_to_evmcore h init salt params gas_left ctx =
      (.error (.internalContract "Exceed Depth"), ctx) := by
  constructor
  · simp [call_to_evmcore, hdepth]
  · simp [create_to_evmcore, hdepth]

/-- Witness for C7 at a concrete input: with depth pinned at the limit, the
call initiation returns the depth error and the unchanged context. -/
theorem depth_exceeded_no_mutation_c7_witness :
    ({ ctx₀ with depth := 512 } : InternalRefContext).spec.max_depth ≤ 512 ∧
    (call_to_evmcore (fun a => a) 2 [] .call params₀ 100 { ctx₀ with depth := 512 }).1 =
      .error (.internalContract "Exceed Depth") := by
  have h := depth_exceeded_no_mutation_c7 (fun a => a) 2 [] [] .call Option.none params₀ 100
    { ctx₀ with depth := 512 } (by decide)
  exact ⟨by decide, by rw [h.1]⟩

/-- C4: finalization arithmetic — for a payload of length `L` and available
gas `G = gas_left + reserved`, if `G < ceil(L/32) * memory_rate` the result
is the out-of-gas error (state not applied, no gas returned); otherwise the
result returns exactly `G - ceil(L/32) * memory_rate` gas together with the
original payload and state-apply flag. -/
theorem finalization_arithmetic_c4 (h : Address → Address) (pr : PassResult)
    (ctx : InternalRefContext) (data : ReturnData)
    (hok : pr.return_data = .ok data) :
    (pr.gas_left + pr.resume.gas_retained <
        (data.length + 31) / 32 * ctx.spec.memory_gas →
      (PassResult.exec h pr ctx).1 = .ret (.error .outOfGas)) ∧
    (¬ pr.gas_left + pr.resume.gas_retained <
        (data.length + 31) / 32 * ctx.spec.memory_gas →
      (PassResult.exec h pr ctx).1 =
        .ret (.ok (.needsReturn
          (pr.gas_left + pr.resume.gas_retained -
            (data.length + 31) / 32 * ctx.spec.memory_gas)
          data pr.apply_state))) := by
  constructor
  · intro hlt
    simp [PassResult.exec, hok, hlt]
  · intro hge
    simp [PassResult.exec, hok, hge]

/-- Witness for C4 at a concrete input: a 32-byte payload costs 3 gas, the
10 available units cover it, and exactly 7 units come back with the payload
and the state-apply flag. -/
theorem finalization_arithmetic_c4_witness :
    pr₁.return_data = .ok (List.replicate 32 1) ∧
    ¬ pr₁.gas_left + pr₁.resume.gas_retained <
        ((List.replicate 32 1 : ReturnData).length + 31) / 32 * ctx₀.spec.memory_gas ∧
    (PassResult.exec (fun a => a) pr₁ ctx₀).1 =
      .ret (.ok (.needsReturn
        (pr₁.gas_left + pr₁.resume.gas_retained -
          ((List.replicate 32 1 : ReturnData).length + 31) / 32 * ctx₀.spec.memory_gas)
        (List.replicate 32 1) pr₁.apply_state)) :=
  ⟨rfl, by decide,
    (finalization_arithmetic_c4 (fun a => a) pr₁ ctx₀ (List.replicate 32 1) rfl).2
      (by decide)⟩

/-- C1 (amended): when the available gas `gas_left + reserved` does not
cover the return cost of a payload, the final result is forced to the
out-of-gas error and the payload is discarded, while the ReturnEvent has
already been appended to the log stream — its success flag equal to the
sub-execution's pre-finalization state-apply flag (true for a successful
sub-execution, false for a reverted one), not necessarily false. -/
theorem return_event_already_emitted_c1 (h : Address → Address)
    (pr : PassResult) (ctx : InternalRefContext) (data : ReturnData)
    (hok : pr.return_data = .ok data)
    (hlt : pr.gas_left + pr.resume.gas_retained <
      (data.length + 31) / 32 * ctx.spec.memory_gas) :
    (PassResult.exec h pr ctx).1 = .ret (.error .outOfGas) ∧
    (PassResult.exec h pr ctx).2.logs = ctx.logs ++
      [{ address := CROSS_SPACE_CONTRACT_ADDRESS
         topics := [ReturnEvent.EVENT_SIG]
         data := [.u256 (ctx.state.nonce (evm_map h pr.resume.params.sender)),
           .u256 pr.gas_left, .boolv pr.apply_state]
         space := pr.resume.params.space }] := by
  constructor
  · simp [PassResult.exec, hok, hlt]
  · simp [PassResult.exec, hok, hlt, ReturnEvent.log, appendEventLog]

/-- Witness for C1 (amended) at a concrete input: a reverted one-byte
payload with no gas available is forced to out-of-gas, and the ReturnEvent
sits in the log with the pre-finalization flag. -/
theorem return_event_already_emitted_c1_witness :
    prC1.return_data = .ok (abiEncodeBytes [1]) ∧
    prC1.gas_left + prC1.resume.gas_retained <
      ((abiEncodeBytes [1]).length + 31) / 32 * ctx₀.spec.memory_gas ∧
    (PassResult.exec (fun a => a) prC1 ctx₀).1 = .ret (.error .outOfGas) ∧
    (PassResult.exec (fun a => a) prC1 ctx₀).2.logs = ctx₀.logs ++
      [{ address := CROSS_SPACE_CONTRACT_ADDRESS
         topics := [ReturnEvent.EVENT_SIG]
         data := [.u256 (ctx₀.state.nonce (evm_map (fun a => a) prC1.resume.params.sender)),
           .u256 prC1.gas_left, .boolv prC1.apply_state]
         space := prC1.resume.params.space }] :=
  ⟨rfl, by decide,
    (return_event_already_emitted_c1 (fun a => a) prC1 ctx₀ (abiEncodeBytes [1])
      rfl (by decide)).1,
    (return_event_already_emitted_c1 (fun a => a) prC1 ctx₀ (abiEncodeBytes [1])
      rfl (by decide)).2⟩

/-- C1 (counterexample to the claim as stated): a finalization of a
successful sub-call whose available gas does not cover the return cost —
the final result is forced to out-of-gas, yet the emitted ReturnEvent
carries the success flag true, not false as the claim states. -/
theorem return_event_flag_counterexample_c1 :
    (∃ d, prC1.return_data = Except.ok d ∧
      prC1.gas_left + prC1.resume.gas_retained <
        (d.length + 31) / 32 * ctx₀.spec.memory_gas) ∧
    (PassResult.exec (fun a => a) prC1 ctx₀).1 = .ret (.error .outOfGas) ∧
    (PassResult.exec (fun a => a) prC1 ctx₀).2.logs.map LogEntry.data =
      [[.u256 7, .u256 0, .boolv true]] ∧
    ¬ (PassResult.exec (fun a => a) prC1 ctx₀).2.logs.map LogEntry.data =
      [[.u256 7, .u256 0, .boolv false]] := by
  exact ⟨⟨abiEncodeBytes [1], rfl, by decide⟩, rfl, by decide, by decide⟩

/-- C2 (code bug): withdrawing 5 units with no value attached to the bridge
call succeeds (mapped balance 10 suffices), but the appended WithdrawEvent
payload records the attached value `params.value.value() = 0`, not the
withdrawn amount 5 demanded by the claim. -/
theorem withdraw_event_payload_bug_c2 :
    (withdraw_from_evmcore (fun a => a) 3 5 params₀ ctx₀).1 = .ok () ∧
    (withdraw_from_evmcore (fun a => a) 3 5 params₀ ctx₀).2.logs.map LogEntry.data =
      [[.u256 params₀.value.value, .u256 7]] ∧
    params₀.value.value = 0 ∧
    ¬ ([[ABIValue.u256 params₀.value.value, ABIValue.u256 7]] =
        [[ABIValue.u256 5, ABIValue.u256 7]]) := by
  refine ⟨?_, by decide, by decide, by decide⟩
  simp [withdraw_from_evmcore, ctx₀, state₀, params₀]

/-- C8: the recovery pass treats reentrancy violations as unrecoverable
integrity faults — whenever the logs reach a CallEvent or CreateEvent while
a phantom is still open, or a ReturnEvent while no phantom is open, the
whole pass aborts (models the Rust assertion/unwrap panic) instead of
returning a result. -/
theorem non_reentrancy_integrity_fault_c8 (spec : Spec) (gas_price : Nat)
    (p s : List LogEntry) (l : LogEntry) (st : RecState)
    (hp : recoverFold spec gas_price (some initRecState) p = some st)
    (hb : l.address = CROSS_SPACE_CONTRACT_ADDRESS)
    (hcase :
      (st.working ≠ Option.none ∧
        (l.topics.head? = some CallEvent.EVENT_SIG ∨
          l.topics.head? = some CreateEvent.EVENT_SIG)) ∨
      (st.working = Option.none ∧ l.topics.head? = some ReturnEvent.EVENT_SIG)) :
    recover_phantom (p ++ l :: s) spec gas_price = Option.none := by
  have hstep : recoverStep spec gas_price st l = Option.none := by
    rcases hcase with ⟨hw, hsig⟩ | ⟨hw, hsig⟩
    · obtain ⟨w, hw'⟩ := Option.ne_none_iff_exists'.mp hw
      rcases hsig with hsig | hsig <;>
        simp [recoverStep, hb, hsig, hw', CallEvent.EVENT_SIG, CreateEvent.EVENT_SIG]
    · cases hdec : decodeReturnData l.data with
      | none =>
          simp [recoverStep, hb, hsig, hdec, CallEvent.EVENT_SIG,
            CreateEvent.EVENT_SIG, WithdrawEvent.EVENT_SIG, ReturnEvent.EVENT_SIG]
      | some q =>
          obtain ⟨n, g, su⟩ := q
          simp [recoverStep, hb, hsig, hdec, hw, CallEvent.EVENT_SIG,
            CreateEvent.EVENT_SIG, WithdrawEvent.EVENT_SIG, ReturnEvent.EVENT_SIG]
  unfold recover_phantom
  rw [recoverFold_append, hp, recoverFold_cons, hstep, recoverFold_none]
  rfl

/-- Witness for C8 at a concrete input: two consecutive CallEvents with no
intervening ReturnEvent make the recovery pass abort. -/
theorem non_reentrancy_integrity_fault_c8_witness :
    recoverFold specOne 1 (some initRecState) [callLogC3 11 22] = some stAfterCall ∧
    stAfterCall.working ≠ Option.none ∧
    recover_phantom [callLogC3 11 22, callLogC3 11 22] specOne 1 = Option.none :=
  ⟨by decide, by decide,
    non_reentrancy_integrity_fault_c8 specOne 1 [callLogC3 11 22] []
      (callLogC3 11 22) stAfterCall (by decide) rfl
      (Or.inl ⟨by decide, Or.inl rfl⟩)⟩

/-- C9: the recovery pass is partial on malformed input — whenever the logs
contain an entry at the bridge contract's address that has no topics, or a
Call/Create/Withdraw signature with its address topics missing, or a
recognized signature whose payload does not decode as the expected tuple,
the whole pass aborts (models the Rust unwrap panic) instead of returning
or skipping the log. -/
theorem malformed_log_fault_c9 (spec : Spec) (gas_price : Nat)
    (p s : List LogEntry) (l : LogEntry)
    (hb : l.address = CROSS_SPACE_CONTRACT_ADDRESS)
    (hmal :
      l.topics = [] ∨
      ((l.topics.head? = some CallEvent.EVENT_SIG ∨
          l.topics.head? = some CreateEvent.EVENT_SIG) ∧
        (l.topics[1]? = Option.none ∨ l.topics[2]? = Option.none)) ∨
      (l.topics.head? = some WithdrawEvent.EVENT_SIG ∧ l.topics[1]? = Option.none) ∨
      ((l.topics.head? = some CallEvent.EVENT_SIG ∨
          l.topics.head? = some CreateEvent.EVENT_SIG) ∧
        decodeCallLikeData l.data = Option.none) ∨
      (l.topics.head? = some WithdrawEvent.EVENT_SIG ∧
        decodeWithdrawData l.data = Option.none) ∨
      (l.topics.head? = some ReturnEvent.EVENT_SIG ∧
        decodeReturnData l.data = Option.none)) :
    recover_phantom (p ++ l :: s) spec gas_price = Option.none := by
  unfold recover_phantom
  rw [recoverFold_append]
  cases hfold : recoverFold spec gas_price (some initRecState) p with
  | none => rw [recoverFold_none]; rfl
  | some st =>
    have hstep : recoverStep spec gas_price st l = Option.none := by
      rcases hmal with hnt | ⟨hsig, hmiss⟩ | ⟨hsig, hmiss⟩ | ⟨hsig, hdec⟩ |
        ⟨hsig, hdec⟩ | ⟨hsig, hdec⟩
      · simp [recoverStep, hb, hnt]
      · cases hw : st.working with
        | some w =>
            rcases hsig with hsig | hsig <;>
              simp [recoverStep, hb, hsig, hw, CallEvent.EVENT_SIG, CreateEvent.EVENT_SIG]
        | none =>
            cases hdec : decodeCallLikeData l.data with
            | none =>
                rcases hsig with hsig | hsig <;>
                  simp [recoverStep, hb, hsig, hw, hdec, CallEvent.EVENT_SIG,
                    CreateEvent.EVENT_SIG]
            | some q =>
                obtain ⟨v, n, g, d⟩ := q
                rcases hsig with hsig | hsig <;> rcases hmiss with hm | hm <;>
                  ((simp only [recoverStep, hb, hsig, hw, hdec, CallEvent.EVENT_SIG,
                      CreateEvent.EVENT_SIG, eq_self_iff_true, if_true, true_or,
                      or_true, reduceIte]) <;>
                    first
                      | (rw [hm]; cases ht : l.topics[1]? <;> simp)
                      | (cases ht : l.topics[1]? <;> cases ht2 : l.topics[2]? <;>
                          simp_all))
      · cases ht1 : l.topics[1]? with
        | none =>
            simp [recoverStep, hb, hsig, ht1, CallEvent.EVENT_SIG,
              CreateEvent.EVENT_SIG, WithdrawEvent.EVENT_SIG]
        | some t1 => simp_all
      · cases hw : st.working with
        | some w =>
            rcases hsig with hsig | hsig <;>
              simp [recoverStep, hb, hsig, hw, CallEvent.EVENT_SIG, CreateEvent.EVENT_SIG]
        | none =>
            rcases hsig with hsig | hsig <;>
              simp [recoverStep, hb, hsig, hw, hdec, CallEvent.EVENT_SIG,
                CreateEvent.EVENT_SIG]
      · cases ht1 : l.topics[1]? with
        | none =>
            simp [recoverStep, hb, hsig, ht1, CallEvent.EVENT_SIG,
              CreateEvent.EVENT_SIG, WithdrawEvent.EVENT_SIG]
        | some t1 =>
            cases t1 with
            | sig id =>
                simp [recoverStep, hb, hsig, ht1, Word.asBytes20, CallEvent.EVENT_SIG,
                  CreateEvent.EVENT_SIG, WithdrawEvent.EVENT_SIG]
            | addr a =>
                simp [recoverStep, hb, hsig, ht1, hdec, Word.asBytes20,
                  CallEvent.EVENT_SIG, CreateEvent.EVENT_SIG, WithdrawEvent.EVENT_SIG]
      · simp [recoverStep, hb, hsig, hdec, CallEvent.EVENT_SIG, CreateEvent.EVENT_SIG,
          WithdrawEvent.EVENT_SIG, ReturnEvent.EVENT_SIG]
    rw [recoverFold_cons, hstep, recoverFold_none]
    rfl

/-- Witness for C9 at a concrete input: a single bridge-address log entry
with no topics makes the recovery pass abort. -/
theorem malformed_log_fault_c9_witness :
    noTopicsLog.address = CROSS_SPACE_CONTRACT_ADDRESS ∧ noTopicsLog.topics = [] ∧
    recover_phantom [noTopicsLog] specOne 1 = Option.none :=
  ⟨rfl, rfl, malformed_log_fault_c9 specOne 1 [] [] noTopicsLog rfl (Or.inl rfl)⟩

/-- C10: every funding, withdraw and refund phantom emitted by the recovery
pass is a simple transfer with gas limit and gas used both equal to the
spec's base transaction gas, empty data, an empty log list, an all-zero
bloom and a successful outcome; the funding phantom moreover has the zero
address as sender and nonce zero.  Stated per branch of the recovery step:
CallEvent funding, CreateEvent funding, WithdrawEvent transfer, ReturnEvent
refund. -/
theorem simple_transfer_phantoms_uniform_c10 (spec : Spec) (gas_price : Nat) :
    (∀ (st : RecState) (l : LogEntry) (a b : Address) (v n g : Nat) (d : List Nat),
      l.address = CROSS_SPACE_CONTRACT_ADDRESS →
      l.topics.head? = some CallEvent.EVENT_SIG →
      st.working = Option.none →
      decodeCallLikeData l.data = some (v, n, g, d) →
      l.topics[1]? = some (.addr a) → l.topics[2]? = some (.addr b) →
      recoverStep spec gas_price st l = some
          { txs := st.txs ++
              [PhantomTransaction.simple_transfer 0 a 0
                (v + (g + gas_required_for false d spec) * gas_price) spec]
            working := some
              { fromAddr := a, nonce := n, action := .call b, value := v
                gas_limit := g + gas_required_for false d spec, data := d
                gas_used := 0, log_bloom := 0, logs := [], outcome_status := 0 } } ∧
        (PhantomTransaction.simple_transfer 0 a 0
            (v + (g + gas_required_for false d spec) * gas_price) spec).fromAddr = 0 ∧
        (PhantomTransaction.simple_transfer 0 a 0
            (v + (g + gas_required_for false d spec) * gas_price) spec).nonce = 0 ∧
        (PhantomTransaction.simple_transfer 0 a 0
            (v + (g + gas_required_for false d spec) * gas_price) spec).gas_limit = spec.tx_gas ∧
        (PhantomTransaction.simple_transfer 0 a 0
            (v + (g + gas_required_for false d spec) * gas_price) spec).gas_used = spec.tx_gas ∧
        (PhantomTransaction.simple_transfer 0 a 0
            (v + (g + gas_required_for false d spec) * gas_price) spec).data = [] ∧
        (PhantomTransaction.simple_transfer 0 a 0
            (v + (g + gas_required_for false d spec) * gas_price) spec).logs = [] ∧
        (PhantomTransaction.simple_transfer 0 a 0
            (v + (g + gas_required_for false d spec) * gas_price) spec).log_bloom = 0 ∧
        (PhantomTransaction.simple_transfer 0 a 0
            (v + (g + gas_required_for false d spec) * gas_price) spec).outcome_status =
          TRANSACTION_OUTCOME_SUCCESS) ∧
    (∀ (st : RecState) (l : LogEntry) (a b : Address) (v n g : Nat) (d : List Nat),
      l.address = CROSS_SPACE_CONTRACT_ADDRESS →
      l.topics.head? = some CreateEvent.EVENT_SIG →
      st.working = Option.none →
      decodeCallLikeData l.data = some (v, n, g, d) →
      l.topics[1]? = some (.addr a) → l.topics[2]? = some (.addr b) →
      recoverStep spec gas_price st l = some
          { txs := st.txs ++
              [PhantomTransaction.simple_transfer 0 a 0
                (v + (g + gas_required_for true d spec) * gas_price) spec]
            working := some
              { fromAddr := a, nonce := n, action := .create, value := v
                gas_limit := g + gas_required_for true d spec, data := d
                gas_used := 0, log_bloom := 0, logs := [], outcome_status := 0 } } ∧
        (PhantomTransaction.simple_transfer 0 a 0
            (v + (g + gas_required_for true d spec) * gas_price) spec).fromAddr = 0 ∧
        (PhantomTransaction.simple_transfer 0 a 0
            (v + (g + gas_required_for true d spec) * gas_price) spec).nonce = 0 ∧
        (PhantomTransaction.simple_transfer 0 a 0
            (v + (g + gas_required_for true d spec) * gas_price) spec).gas_limit = spec.tx_gas ∧
        (PhantomTransaction.simple_transfer 0 a 0
            (v + (g + gas_required_for true d spec) * gas_price) spec).gas_used = spec.tx_gas ∧
        (PhantomTransaction.simple_transfer 0 a 0
            (v + (g + gas_required_for true d spec) * gas_price) spec).data = [] ∧
        (PhantomTransaction.simple_transfer 0 a 0
            (v + (g + gas_required_for true d spec) * gas_price) spec).logs = [] ∧
        (PhantomTransaction.simple_transfer 0 a 0
            (v + (g + gas_required_for true d spec) * gas_price) spec).log_bloom = 0 ∧
        (PhantomTransaction.simple_transfer 0 a 0
            (v + (g + gas_required_for true d spec) * gas_price) spec).outcome_status =
          TRANSACTION_OUTCOME_SUCCESS) ∧
    (∀ (st : RecState) (l : LogEntry) (a : Address) (v n : Nat),
      l.address = CROSS_SPACE_CONTRACT_ADDRESS →
      l.topics.head? = some WithdrawEvent.EVENT_SIG →
      l.topics[1]? = some (.addr a) →
      decodeWithdrawData l.data = some (v, n) →
      recoverStep spec gas_price st l = some
          { txs := st.txs ++ [PhantomTransaction.simple_transfer a 0 n v spec]
            working := st.working } ∧
        (PhantomTransaction.simple_transfer a 0 n v spec).gas_limit = spec.tx_gas ∧
        (PhantomTransaction.simple_transfer a 0 n v spec).gas_used = spec.tx_gas ∧
        (PhantomTransaction.simple_transfer a 0 n v spec).data = [] ∧
        (PhantomTransaction.simple_transfer a 0 n v spec).logs = [] ∧
        (PhantomTransaction.simple_transfer a 0 n v spec).log_bloom = 0 ∧
        (PhantomTransaction.simple_transfer a 0 n v spec).outcome_status =
          TRANSACTION_OUTCOME_SUCCESS) ∧
    (∀ (st : RecState) (l : LogEntry) (w : PhantomTransaction) (n g : Nat) (su : Bool),
      l.address = CROSS_SPACE_CONTRACT_ADDRESS →
      l.topics.head? = some ReturnEvent.EVENT_SIG →
      decodeReturnData l.data = some (n, g, su) →
      st.working = some w →
      recoverStep spec gas_price st l = some
          { txs := st.txs ++
              [{ w with
                  gas_used := w.gas_limit - g
                  outcome_status :=
                    if su then TRANSACTION_OUTCOME_SUCCESS
                    else TRANSACTION_OUTCOME_EXCEPTION_WITH_NONCE_BUMPING
                  log_bloom := w.logs.foldl (fun bl lg => bl ||| lg.bloom) 0 },
                PhantomTransaction.simple_transfer w.fromAddr 0 n (g * gas_price) spec]
            working := Option.none } ∧
        (PhantomTransaction.simple_transfer w.fromAddr 0 n (g * gas_price) spec).gas_limit =
          spec.tx_gas ∧
        (PhantomTransaction.simple_transfer w.fromAddr 0 n (g * gas_price) spec).gas_used =
          spec.tx_gas ∧
        (PhantomTransaction.simple_transfer w.fromAddr 0 n (g * gas_price) spec).data = [] ∧
        (PhantomTransaction.simple_transfer w.fromAddr 0 n (g * gas_price) spec).logs = [] ∧
        (PhantomTransaction.simple_transfer w.fromAddr 0 n (g * gas_price) spec).log_bloom = 0 ∧
        (PhantomTransaction.simple_transfer w.fromAddr 0 n (g * gas_price) spec).outcome_status =
          TRANSACTION_OUTCOME_SUCCESS) := by
  refine ⟨?_, ?_, ?_, ?_⟩
  · intro st l a b v n g d hb hsig hw hdec ht1 ht2
    refine ⟨?_, rfl, rfl, rfl, rfl, rfl, rfl, rfl, rfl⟩
    simp [recoverStep, hb, hsig, hw, hdec, ht1, ht2, Word.asBytes20,
      CallEvent.EVENT_SIG, CreateEvent.EVENT_SIG]
  · intro st l a b v n g d hb hsig hw hdec ht1 ht2
    refine ⟨?_, rfl, rfl, rfl, rfl, rfl, rfl, rfl, rfl⟩
    simp [recoverStep, hb, hsig, hw, hdec, ht1, ht2, Word.asBytes20,
      CallEvent.EVENT_SIG, CreateEvent.EVENT_SIG]
  · intro st l a v n hb hsig ht1 hdec
    refine ⟨?_, rfl, rfl, rfl, rfl, rfl, rfl⟩
    simp [recoverStep, hb, hsig, ht1, hdec, Word.asBytes20, CallEvent.EVENT_SIG,
      CreateEvent.EVENT_SIG, WithdrawEvent.EVENT_SIG]
  · intro st l w n g su hb hsig hdec hw
    refine ⟨?_, rfl, rfl, rfl, rfl, rfl, rfl⟩
    simp [recoverStep, hb, hsig, hdec, hw, CallEvent.EVENT_SIG,
      CreateEvent.EVENT_SIG, WithdrawEvent.EVENT_SIG, ReturnEvent.EVENT_SIG]

/-- Witness for C10 at a concrete input: a WithdrawEvent for mapped address
9, value 3 and nonce 8 appends exactly the uniform simple-transfer phantom. -/
theorem simple_transfer_phantoms_uniform_c10_witness :
    recoverStep specOne 1 initRecState withdrawLog = some
        { txs := initRecState.txs ++ [PhantomTransaction.simple_transfer 9 0 8 3 specOne]
          working := initRecState.working } ∧
      (PhantomTransaction.simple_transfer 9 0 8 3 specOne).gas_limit = specOne.tx_gas ∧
      (PhantomTransaction.simple_transfer 9 0 8 3 specOne).gas_used = specOne.tx_gas ∧
      (PhantomTransaction.simple_transfer 9 0 8 3 specOne).data = [] ∧
      (PhantomTransaction.simple_transfer 9 0 8 3 specOne).logs = [] ∧
      (PhantomTransaction.simple_transfer 9 0 8 3 specOne).log_bloom = 0 ∧
      (PhantomTransaction.simple_transfer 9 0 8 3 specOne).outcome_status =
        TRANSACTION_OUTCOME_SUCCESS :=
  (simple_transfer_phantoms_uniform_c10 specOne 1).2.2.1 initRecState withdrawLog
    9 3 8 rfl rfl rfl rfl

end CrossSpace
